import Mathlib

/-!
Shallow embedding of the two maintenance scripts of this repository:
`scripts/check_agents_compliance.py` (a style-compliance checker over file
contents) and `scripts/verify_playlist_integration.py` (an integration
verifier running ten import / inheritance / attribute / file-substring
checks). Effects of the Python runtime (file reads, `ast.parse`, module
imports, `issubclass`, `hasattr`) are passed in as explicit inputs; an
uncaught Python exception is an `Except.error` value that propagates.
-/

/-- ASCII whitespace, covering what the scripts meet of the regex class
`\s` and of `str.isspace` / `str.strip`: space, tab, newline, carriage
return, vertical tab, form feed. -/
def pyIsSpace (c : Char) : Bool :=
  c == ' ' || c == '\t' || c == '\n' || c == '\r' || c == '\x0b' || c == '\x0c'

/-- A word character for the regex token `\b`, rendered over ASCII: letters,
digits, underscore.  Python compiles its patterns with the default Unicode
word class, whose ASCII part is exactly this set, so the rendering is
faithful on ASCII text (`ascii_only` below); a non-ASCII letter such as é is
a word character to Python but not here, so the one statement that relies on
a word boundary is bounded to ASCII contents. -/
def isWordChar (c : Char) : Bool := c.isAlphanum || c == '_'

/-- ASCII-only content: every character below code point 128.  On such
content `isWordChar` coincides with the Unicode word class `\w` of the
source regexes. -/
def ascii_only (s : String) : Bool := s.toList.all fun c => decide (c.toNat < 128)

/-- Python substring containment `pat in s`. -/
def hasSubstr (s pat : String) : Bool :=
  (List.range (s.toList.length + 1)).any fun i => pat.toList.isPrefixOf (s.toList.drop i)

/-- Splitting on a single separator character, written structurally so that
concrete runs reduce in the kernel. -/
def split_on_char (sep : Char) : List Char → List (List Char)
  | [] => [[]]
  | c :: rest =>
    let r := split_on_char sep rest
    if c == sep then [] :: r
    else (c :: r.headD []) :: r.tail

/-- Python `content.split("\n")`. -/
def pyLines (s : String) : List String := (split_on_char '\n' s.toList).map fun l => String.mk l

/-- Python `str.startswith`. -/
def pyStartsWith (s pre : String) : Bool := pre.toList.isPrefixOf s.toList

/-- Python `str.strip()`: whitespace removed at both ends. -/
def pyStrip (s : String) : String :=
  String.mk (((s.toList.dropWhile pyIsSpace).reverse.dropWhile pyIsSpace).reverse)

/-- `pathlib.Path.name`: the final path component. -/
def path_name (fp : String) : String :=
  (((split_on_char '/' fp.toList).map fun l => String.mk l).getLastD fp)

/-- `re.search` of the pattern `except\s*:` anywhere in the content.  Since
a colon is not whitespace, the greedy `\s*` is equivalent to dropping the
maximal whitespace run after `except` and requiring a colon there. -/
def bare_except_found (content : String) : Bool :=
  let cs := content.toList
  (List.range (cs.length + 1)).any fun i =>
    "except".toList.isPrefixOf (cs.drop i) &&
    (match (cs.drop (i + 6)).dropWhile pyIsSpace with
     | ':' :: _ => true
     | _ => false)

/-- Whether the word `name` occurs at position `j` of `cs` with regex word
boundaries (`\b`) on both sides. -/
def word_at (name : List Char) (cs : List Char) (j : Nat) : Bool :=
  name.isPrefixOf (cs.drop j) &&
  (j == 0 || !isWordChar (cs.getD (j - 1) ' ')) &&
  (decide (cs.length ≤ j + name.length) || !isWordChar (cs.getD (j + name.length) ' '))

/-- The regex `from typing import.*\bNAME\b` tried within one line.  The
literal prefix is 18 characters; `.*` stays on the line, so `NAME` must
occur, word-bounded, at some position at least 18 past the prefix start. -/
def deprecated_line_match (name : String) (line : String) : Bool :=
  let cs := line.toList
  (List.range (cs.length + 1)).any fun i =>
    "from typing import".toList.isPrefixOf (cs.drop i) &&
    (List.range (cs.length + 1)).any fun j =>
      decide (i + 18 ≤ j) && word_at name.toList cs j

/-- `re.search` of `from typing import.*\bNAME\b` over the whole content:
since neither the literal part nor `.*` crosses a newline, this is a search
over the lines.  Through `isWordChar` the boundary test is the ASCII one, so
this matcher agrees with the source regex exactly on ASCII contents
(`ascii_only`); on non-ASCII neighbours of `NAME` it can match where the
Unicode `\b` of the source does not. -/
def deprecated_found (name : String) (content : String) : Bool :=
  (pyLines content).any fun line => deprecated_line_match name line

/-- One attempt of the regex `"""[^"]*"""` at the head of `cs`: the greedy
`[^"]*` runs to the next quote, where three quotes must follow; on success
the remainder after the match. -/
def doc_match (cs : List Char) : Option (List Char) :=
  if ['\"', '\"', '\"'].isPrefixOf cs then
    let rest := (cs.drop 3).dropWhile (fun c => c != '\"')
    if ['\"', '\"', '\"'].isPrefixOf rest then some (rest.drop 3) else none
  else none

/-- The left-to-right scan of `re.findall` for `"""[^"]*"""`: advance one
character on failure, past the whole match on success.  The fuel bounds the
recursion; each step consumes at least one character, so the initial length
is enough. -/
def doc_scan : Nat → List Char → Nat
  | 0, _ => 0
  | _ + 1, [] => 0
  | fuel + 1, c :: rest =>
    match doc_match (c :: rest) with
    | some rest2 => 1 + doc_scan fuel rest2
    | none => doc_scan fuel rest

/-- `len(re.findall(r'"""[^"]*"""', content))` of `_check_docstrings`. -/
def doc_count (content : String) : Nat := doc_scan content.toList.length content.toList

/-- The regex `^class\s+([A-Z][a-zA-Z0-9]*)\s*[:(]` tried at the start of one
line (with `re.MULTILINE`, `^` anchors at each line start). -/
def class_line_match (line : String) : Bool :=
  let cs := line.toList
  "class".toList.isPrefixOf cs &&
  (match cs.drop 5 with
   | [] => false
   | c :: rest =>
     pyIsSpace c &&
     (match rest.dropWhile pyIsSpace with
      | [] => false
      | d :: rest2 =>
        d.isUpper &&
        (match (rest2.dropWhile Char.isAlphanum).dropWhile pyIsSpace with
         | ':' :: _ => true
         | '(' :: _ => true
         | _ => false)))

/-- The regex `^\s*def\s+([a-z_][a-z0-9_]*)\s*\(` tried on one line.  For the
boolean use the checker makes of `findall` (emptiness only), a per-line match
is equivalent to the multiline search. -/
def func_line_match (line : String) : Bool :=
  let cs := line.toList.dropWhile pyIsSpace
  "def".toList.isPrefixOf cs &&
  (match cs.drop 3 with
   | [] => false
   | c :: rest =>
     pyIsSpace c &&
     (match rest.dropWhile pyIsSpace with
      | [] => false
      | d :: rest2 =>
        (d.isLower || d == '_') &&
        (match (rest2.dropWhile fun ch => ch.isLower || ch.isDigit || ch == '_').dropWhile
            pyIsSpace with
         | '(' :: _ => true
         | _ => false)))

/-- A decorator as `_check_type_hints` reads it: an `ast.Name` with its
identifier, or any other decorator expression. -/
inductive PyDecorator
  | name (id : String)
  | other
deriving DecidableEq

/-- What the type-hints check reads off one `ast.FunctionDef` or
`ast.AsyncFunctionDef` node: its name, whether it has a return annotation
(`node.returns is not None`), and its decorator list. -/
structure PyFuncDef where
  name : String
  hasReturns : Bool
  decorators : List PyDecorator
deriving DecidableEq

/-- What the checker reads off a successfully parsed module: the function
definition nodes met by `ast.walk`. -/
structure PyModule where
  functions : List PyFuncDef
deriving DecidableEq

/-- The outcome of `ast.parse` on a given content: a module, or a
`SyntaxError` carrying its text.  The Python parser is outside the scripts,
so it enters the model as an oracle. -/
abbrev PyParse := String → Except String PyModule

/-- The `untyped_functions` list built by `_check_type_hints`: public
functions without a return annotation, no `property` decorator, and not
named `test_*`. -/
def untyped_functions (m : PyModule) : List String :=
  (m.functions.filter fun f =>
    !pyStartsWith f.name "_" && !f.hasReturns &&
    !(f.decorators.any fun d => match d with | .name id => id == "property" | .other => false) &&
    !pyStartsWith f.name "test_").map (fun f => f.name)

/-- The mutable state of the Python class `AGENTSCompliance`: the accumulated
`(file, message, severity)` tuples (severity 1 = warning, 2 = error) and the
pass messages. -/
structure AGENTSCompliance where
  issues : List (String × String × Nat)
  passed : List String
deriving DecidableEq

namespace AGENTSCompliance

/-- `AGENTSCompliance.__init__`: empty issue and pass lists. -/
def init : AGENTSCompliance := ⟨[], []⟩

/-- The six deprecated typing names, in the order of the Python pattern list. -/
def deprecated_names : List String := ["List", "Dict", "Set", "Tuple", "Optional", "Union"]

/-- Check 1: `_check_no_deprecated_typing` — the first matching pattern
appends one severity-2 issue and returns; no match appends a pass message. -/
def _check_no_deprecated_typing (fp content : String) (st : AGENTSCompliance) : AGENTSCompliance :=
  match deprecated_names.find? (fun name => deprecated_found name content) with
  | some name =>
    { st with issues := st.issues ++
        [(fp, "❌ Deprecated: 'from typing import " ++ name ++ "' (use built-in)", 2)] }
  | none =>
    { st with passed := st.passed ++ ["✅ No deprecated typing imports (" ++ path_name fp ++ ")"] }

/-- Check 2: `_check_union_types` — appends a pass message when the content
uses `|` union syntax, otherwise does nothing. -/
def _check_union_types (fp content : String) (st : AGENTSCompliance) : AGENTSCompliance :=
  if hasSubstr content "| None" || hasSubstr content "| " then
    { st with passed := st.passed ++ ["✅ Uses modern union types with | (" ++ path_name fp ++ ")"] }
  else st

/-- Check 3: `_check_no_bare_except` — one severity-2 issue when the regex
`except\s*:` matches, else a pass message. -/
def _check_no_bare_except (fp content : String) (st : AGENTSCompliance) : AGENTSCompliance :=
  if bare_except_found content then
    { st with issues := st.issues ++
        [(fp, "❌ Bare 'except:' found (use specific exceptions)", 2)] }
  else
    { st with passed := st.passed ++ ["✅ No bare except clauses (" ++ path_name fp ++ ")"] }

/-- Check 4: `_check_type_hints` — on a parsed module appends a pass message
either way (functions without return hints only change its wording); on a
`SyntaxError` appends one severity-2 issue. -/
def _check_type_hints (parse : PyParse) (fp content : String) (st : AGENTSCompliance) :
    AGENTSCompliance :=
  match parse content with
  | .ok tree =>
    let u := untyped_functions tree
    if u ≠ [] then
      { st with passed := st.passed ++
          ["✅ Most functions typed (" ++ path_name fp ++ ") - " ++ toString u.length ++
            " without return hints"] }
    else
      { st with passed := st.passed ++ ["✅ All functions have type hints (" ++ path_name fp ++ ")"] }
  | .error e =>
    { st with issues := st.issues ++ [(fp, "❌ Syntax error: " ++ e, 2)] }

/-- Check 5: `_check_naming` — a pass message for each nonempty findall
(PascalCase classes, snake_case functions); never an issue. -/
def _check_naming (fp content : String) (st : AGENTSCompliance) : AGENTSCompliance :=
  let st1 :=
    if (pyLines content).any class_line_match then
      { st with passed := st.passed ++ ["✅ Classes in PascalCase (" ++ path_name fp ++ ")"] }
    else st
  if (pyLines content).any func_line_match then
    { st1 with passed := st1.passed ++ ["✅ Functions in snake_case (" ++ path_name fp ++ ")"] }
  else st1

/-- Check 6: `_check_docstrings` — a pass message when the docstring count
exceeds 5, else one severity-1 issue. -/
def _check_docstrings (fp content : String) (st : AGENTSCompliance) : AGENTSCompliance :=
  let n := doc_count content
  if n > 5 then
    { st with passed := st.passed ++
        ["✅ Comprehensive docstrings (" ++ path_name fp ++ ") - " ++ toString n ++ " found"] }
  else
    { st with issues := st.issues ++ [(fp, "⚠️ Few docstrings found (" ++ toString n ++ ")", 1)] }

/-- Check 7: `_check_line_length` — one severity-1 issue when some
non-comment line exceeds 120 characters, else a pass message. -/
def _check_line_length (fp content : String) (st : AGENTSCompliance) : AGENTSCompliance :=
  let long_lines := (pyLines content).filter fun line =>
    decide (line.length > 120) && !pyStartsWith (pyStrip line) "#"
  if long_lines ≠ [] then
    { st with issues := st.issues ++
        [(fp, "⚠️ " ++ toString long_lines.length ++ " lines exceed 120 characters", 1)] }
  else
    { st with passed := st.passed ++ ["✅ All lines ≤ 120 characters (" ++ path_name fp ++ ")"] }

/-- The import-section loop of `_check_isort_order`: collect lines starting
with `import ` or `from `; once inside the import section, a nonempty line
whose first character is not whitespace ends the scan. -/
def collect_import_lines : List String → Bool → List String
  | [], _ => []
  | l :: ls, inImports =>
    if pyStartsWith l "import " || pyStartsWith l "from " then
      l :: collect_import_lines ls true
    else if inImports && !l.toList.isEmpty && !pyIsSpace (l.toList.headD ' ') then
      []
    else
      collect_import_lines ls inImports

/-- Check 8: `_check_isort_order` — with import lines present and all three
groups detected, a severity-1 issue when the first stdlib marker does not
come before the first third-party marker; otherwise pass messages; with an
empty import section, nothing. -/
def _check_isort_order (fp content : String) (st : AGENTSCompliance) : AGENTSCompliance :=
  let import_lines := collect_import_lines (pyLines content) false
  if import_lines ≠ [] then
    let has_stdlib := import_lines.any fun l =>
      hasSubstr l "import threading" || hasSubstr l "import concurrent"
    let has_thirdparty := import_lines.any fun l => hasSubstr l "PySide6" || hasSubstr l "requests"
    let has_firstparty := import_lines.any fun l => hasSubstr l "from tidal_dl_ng"
    if has_stdlib && has_thirdparty && has_firstparty then
      let stdlib_idx : Int :=
        match import_lines.findIdx? (fun l =>
            hasSubstr l "import threading" || hasSubstr l "import concurrent") with
        | some i => (i : Int)
        | none => -1
      let thirdparty_idx : Int :=
        match import_lines.findIdx? (fun l => hasSubstr l "PySide6" || hasSubstr l "requests") with
        | some i => (i : Int)
        | none => -1
      if stdlib_idx < thirdparty_idx then
        { st with passed := st.passed ++
            ["✅ Imports properly ordered (isort) (" ++ path_name fp ++ ")"] }
      else
        { st with issues := st.issues ++ [(fp, "⚠️ Import order may not match isort", 1)] }
    else
      { st with passed := st.passed ++ ["✅ Import order OK (" ++ path_name fp ++ ")"] }
  else st

/-- Check 9: `_check_thread_safety` — up to three pass messages depending on
substrings; never an issue. -/
def _check_thread_safety (fp content : String) (st : AGENTSCompliance) : AGENTSCompliance :=
  let st1 :=
    if hasSubstr content "threading.RLock" || hasSubstr content "threading.Lock" then
      { st with passed := st.passed ++
          ["✅ Uses threading.Lock for thread-safety (" ++ path_name fp ++ ")"] }
    else st
  let st2 :=
    if hasSubstr content "with self._lock" then
      { st1 with passed := st1.passed ++
          ["✅ Uses context managers for locks (" ++ path_name fp ++ ")"] }
    else st1
  if hasSubstr content "ThreadPoolExecutor" then
    { st2 with passed := st2.passed ++
        ["✅ Uses ThreadPoolExecutor for concurrency (" ++ path_name fp ++ ")"] }
  else st2

/-- Check 10: `_check_logging` — a pass message when a logger is mentioned,
otherwise nothing; never an issue. -/
def _check_logging (fp content : String) (st : AGENTSCompliance) : AGENTSCompliance :=
  if hasSubstr content "logger_gui" || hasSubstr content "logger" then
    { st with passed := st.passed ++ ["✅ Uses project logger (" ++ path_name fp ++ ")"] }
  else st

/-- The ten checks of `check_file` applied to the file content in source
order (1 deprecated typing, 2 union types, 3 bare except, 4 type hints,
5 naming, 6 docstrings, 7 line length, 8 isort, 9 thread safety, 10 logging). -/
def run_checks (parse : PyParse) (fp content : String) (st : AGENTSCompliance) : AGENTSCompliance :=
  _check_logging fp content
    (_check_thread_safety fp content
      (_check_isort_order fp content
        (_check_line_length fp content
          (_check_docstrings fp content
            (_check_naming fp content
              (_check_type_hints parse fp content
                (_check_no_bare_except fp content
                  (_check_union_types fp content
                    (_check_no_deprecated_typing fp content st)))))))))

/-- `check_file`: the unguarded `filepath.read_text` followed by the ten
checks.  There is no try around the read, so a read exception propagates. -/
def check_file (parse : PyParse) (fp : String) (read_result : Except String String)
    (st : AGENTSCompliance) : Except String AGENTSCompliance :=
  match read_result with
  | .error e => .error e
  | .ok content => .ok (run_checks parse fp content st)

/-- `report`: the returned exit code — 0 exactly when no accumulated issue
has severity 2. -/
def report (st : AGENTSCompliance) : Nat :=
  if (st.issues.filter fun i => i.2.2 == 2).length == 0 then 0 else 1

/-- The `__main__` loop over the files to check (Python skips missing files;
the list here holds the files found, each with its read outcome). -/
def run_files (parse : PyParse) : List (String × Except String String) → AGENTSCompliance →
    Except String AGENTSCompliance
  | [], st => .ok st
  | (fp, r) :: rest, st =>
    match check_file parse fp r st with
    | .error e => .error e
    | .ok st2 => run_files parse rest st2

/-- The exit code of a whole `__main__` run from a fresh instance. -/
def main_exit (parse : PyParse) (files : List (String × Except String String)) :
    Except String Nat :=
  (run_files parse files init).map report

/-- The counts of the report summary plus the exit code: passes, warnings
(severity 1), errors (severity 2), exit code. -/
def report_counts (st : AGENTSCompliance) : Nat × Nat × Nat × Nat :=
  (st.passed.length,
   (st.issues.filter fun i => i.2.2 == 1).length,
   (st.issues.filter fun i => i.2.2 == 2).length,
   report st)

/-- A whole run from a fresh instance, summarised as its counts. -/
def run_counts (parse : PyParse) (files : List (String × Except String String)) :
    Except String (Nat × Nat × Nat × Nat) :=
  (run_files parse files init).map report_counts

end AGENTSCompliance

namespace VerifyPlaylistIntegration

/-- What `__import__(module_path, fromlist=[component_name])` can do: succeed,
raise an `ImportError`, or raise some other exception.  Only the first two are
handled by `_check_import`; the third propagates out of it. -/
inductive ImportOutcome
  | success
  | importError (msg : String)
  | otherError (msg : String)
deriving DecidableEq

/-- `_check_import`: `except ImportError` converts an `ImportError` into the
failed count `(0, 1)`; success yields `(1, 0)`; any other exception is not
caught and propagates. -/
def _check_import (module_path component_name : String) (check_num : Nat)
    (outcome : ImportOutcome) : Except String (Nat × Nat) :=
  match module_path, component_name, check_num, outcome with
  | _, _, _, .success => .ok (1, 0)
  | _, _, _, .importError _ => .ok (0, 1)
  | _, _, _, .otherError msg => .error msg

/-- What the body of `_check_mainwindow_inheritance` can meet: any exception
(caught by its bare `except Exception`), or the `issubclass` test deciding
either way. -/
inductive InheritOutcome
  | raised (msg : String)
  | subclassTrue
  | subclassFalse
deriving DecidableEq

/-- `_check_mainwindow_inheritance`: `(1, 0)` only when `issubclass` holds;
an exception or a negative test yields `(0, 1)`. -/
def _check_mainwindow_inheritance : InheritOutcome → Nat × Nat
  | .subclassTrue => (1, 0)
  | .raised _ => (0, 1)
  | .subclassFalse => (0, 1)

/-- What the body of `_check_method_exists` can meet: any exception (caught
by its `except Exception`), or the `hasattr` test deciding either way. -/
inductive MethodOutcome
  | raised (msg : String)
  | hasMethod
  | missingMethod
deriving DecidableEq

/-- `_check_method_exists`: `(1, 0)` only when `hasattr` holds; an exception
or a missing attribute yields `(0, 1)`. -/
def _check_method_exists : MethodOutcome → Nat × Nat
  | .hasMethod => (1, 0)
  | .raised _ => (0, 1)
  | .missingMethod => (0, 1)

/-- `_check_file_content`: the whole body sits in a try whose
`except Exception` yields `(0, 1)`, so a failing read is converted; a read
content passes exactly when it contains the search string. -/
def _check_file_content (read_result : Except String String) (search_str : String)
    (check_num : Nat) (success_msg fail_msg : String) : Nat × Nat :=
  match read_result, search_str, check_num, success_msg, fail_msg with
  | .error _, _, _, _, _ => (0, 1)
  | .ok content, s, _, _, _ => if hasSubstr content s then (1, 0) else (0, 1)

/-- The runtime facts the ten checks consult: the five import outcomes, the
inheritance and attribute probe outcomes, and the three file reads. -/
structure IntegrationEnv where
  imp1 : ImportOutcome
  imp2 : ImportOutcome
  imp3 : ImportOutcome
  imp4 : ImportOutcome
  imp5 : ImportOutcome
  inh : InheritOutcome
  meth : MethodOutcome
  read8 : Except String String
  read9 : Except String String
  read10 : Except String String

/-- `_run_all_import_checks`: the loop over the five fixed import checks,
unrolled; a propagating exception from any iteration aborts the loop. -/
def _run_all_import_checks (e : IntegrationEnv) : Except String (Nat × Nat) :=
  match _check_import "tidal_dl_ng.gui.playlist_membership_mixin" "PlaylistMembershipMixin" 1
      e.imp1 with
  | .error m => .error m
  | .ok (p1, f1) =>
    match _check_import "tidal_dl_ng.gui.playlist_membership" "PlaylistContextLoader" 2 e.imp2 with
    | .error m => .error m
    | .ok (p2, f2) =>
      match _check_import "tidal_dl_ng.gui.playlist_membership" "ThreadSafePlaylistCache" 3
          e.imp3 with
      | .error m => .error m
      | .ok (p3, f3) =>
        match _check_import "tidal_dl_ng.gui.playlist_membership" "PlaylistColumnDelegate" 4
            e.imp4 with
        | .error m => .error m
        | .ok (p4, f4) =>
          match _check_import "tidal_dl_ng.ui.dialog_playlist_manager" "PlaylistManagerDialog" 5
              e.imp5 with
          | .error m => .error m
          | .ok (p5, f5) => .ok (p1 + p2 + p3 + p4 + p5, f1 + f2 + f3 + f4 + f5)

/-- `check_integration`: accumulate the ten checks in order and return
`(checks_passed, checks_failed, exit code)`; the exit code is 0 exactly when
`checks_failed == 0`.  An exception propagating from an import check aborts
the run with no exit code. -/
def check_integration (e : IntegrationEnv) : Except String (Nat × Nat × Nat) :=
  match _run_all_import_checks e with
  | .error m => .error m
  | .ok (p, f) =>
    let r6 := _check_mainwindow_inheritance e.inh
    let r7 := _check_method_exists e.meth
    let r8 := _check_file_content e.read8 "child_playlists" 8
      "child_playlists column added to TreesResultsMixin"
      "child_playlists column NOT found in TreesResultsMixin"
    let r9 := _check_file_content e.read9 "init_playlist_membership_manager" 9
      "init_playlist_membership_manager called in init_tidal"
      "init_playlist_membership_manager NOT called in init_tidal"
    let r10 := _check_file_content e.read10 "PlaylistCellState" 10
      "PlaylistCellState imported in mixin"
      "PlaylistCellState NOT imported in mixin"
    let checks_passed := p + r6.1 + r7.1 + r8.1 + r9.1 + r10.1
    let checks_failed := f + r6.2 + r7.2 + r8.2 + r9.2 + r10.2
    .ok (checks_passed, checks_failed, if checks_failed == 0 then 0 else 1)

/-- The input one of the ten checks consults, as a single sum type, so that
independence can be stated: check `j` reads `check_input j` and nothing else. -/
inductive CheckInput
  | imp (o : ImportOutcome)
  | inh (o : InheritOutcome)
  | meth (o : MethodOutcome)
  | file (r : Except String String)

/-- The slice of the environment consulted by check `j` (0-based: checks 1-5
are the imports, 6 the inheritance, 7 the attribute, 8-10 the file contents). -/
def check_input (j : Fin 10) (e : IntegrationEnv) : CheckInput :=
  match j with
  | ⟨0, _⟩ => .imp e.imp1
  | ⟨1, _⟩ => .imp e.imp2
  | ⟨2, _⟩ => .imp e.imp3
  | ⟨3, _⟩ => .imp e.imp4
  | ⟨4, _⟩ => .imp e.imp5
  | ⟨5, _⟩ => .inh e.inh
  | ⟨6, _⟩ => .meth e.meth
  | ⟨7, _⟩ => .file e.read8
  | ⟨8, _⟩ => .file e.read9
  | ⟨9, _⟩ => .file e.read10

/-- The `(passed, failed)` outcome of check `j` alone (an import check may
instead propagate an exception). -/
def check_outcome (j : Fin 10) (e : IntegrationEnv) : Except String (Nat × Nat) :=
  match j with
  | ⟨0, _⟩ => _check_import "tidal_dl_ng.gui.playlist_membership_mixin" "PlaylistMembershipMixin" 1
      e.imp1
  | ⟨1, _⟩ => _check_import "tidal_dl_ng.gui.playlist_membership" "PlaylistContextLoader" 2 e.imp2
  | ⟨2, _⟩ => _check_import "tidal_dl_ng.gui.playlist_membership" "ThreadSafePlaylistCache" 3 e.imp3
  | ⟨3, _⟩ => _check_import "tidal_dl_ng.gui.playlist_membership" "PlaylistColumnDelegate" 4 e.imp4
  | ⟨4, _⟩ => _check_import "tidal_dl_ng.ui.dialog_playlist_manager" "PlaylistManagerDialog" 5
      e.imp5
  | ⟨5, _⟩ => .ok (_check_mainwindow_inheritance e.inh)
  | ⟨6, _⟩ => .ok (_check_method_exists e.meth)
  | ⟨7, _⟩ => .ok (_check_file_content e.read8 "child_playlists" 8
      "child_playlists column added to TreesResultsMixin"
      "child_playlists column NOT found in TreesResultsMixin")
  | ⟨8, _⟩ => .ok (_check_file_content e.read9 "init_playlist_membership_manager" 9
      "init_playlist_membership_manager called in init_tidal"
      "init_playlist_membership_manager NOT called in init_tidal")
  | ⟨9, _⟩ => .ok (_check_file_content e.read10 "PlaylistCellState" 10
      "PlaylistCellState imported in mixin"
      "PlaylistCellState NOT imported in mixin")

/-- All ten checks pass: the five imports succeed, the inheritance and
attribute probes decide positively, and each read file contains its search
string. -/
def IntegrationEnv.allPass (e : IntegrationEnv) : Prop :=
  e.imp1 = .success ∧ e.imp2 = .success ∧ e.imp3 = .success ∧ e.imp4 = .success ∧
  e.imp5 = .success ∧ e.inh = .subclassTrue ∧ e.meth = .hasMethod ∧
  (∃ c, e.read8 = .ok c ∧ hasSubstr c "child_playlists" = true) ∧
  (∃ c, e.read9 = .ok c ∧ hasSubstr c "init_playlist_membership_manager" = true) ∧
  (∃ c, e.read10 = .ok c ∧ hasSubstr c "PlaylistCellState" = true)

end VerifyPlaylistIntegration

/-! Helper lemmas about the compliance checker. -/

namespace AGENTSCompliance

theorem filter_errors_nil_iff (st : AGENTSCompliance) :
    ((st.issues.filter fun i => i.2.2 == 2) = []) ↔ ∀ t ∈ st.issues, t.2.2 ≠ 2 := by
  rw [List.filter_eq_nil_iff]
  simp

theorem report_one_of_error (st : AGENTSCompliance) (t : String × String × Nat)
    (ht : t ∈ st.issues) (h2 : t.2.2 = 2) : report st = 1 := by
  simp only [report]
  split <;> rename_i hb
  · exfalso
    simp only [beq_iff_eq, List.length_eq_zero] at hb
    exact (filter_errors_nil_iff st).mp hb t ht h2
  · rfl

theorem union_types_issues (fp content : String) (st : AGENTSCompliance) :
    (_check_union_types fp content st).issues = st.issues := by
  simp only [_check_union_types]
  split <;> rfl

theorem thread_safety_issues (fp content : String) (st : AGENTSCompliance) :
    (_check_thread_safety fp content st).issues = st.issues := by
  simp only [_check_thread_safety]
  split <;> split <;> split <;> rfl

theorem logging_issues (fp content : String) (st : AGENTSCompliance) :
    (_check_logging fp content st).issues = st.issues := by
  simp only [_check_logging]
  split <;> rfl

theorem naming_issues (fp content : String) (st : AGENTSCompliance) :
    (_check_naming fp content st).issues = st.issues := by
  simp only [_check_naming]
  split <;> split <;> rfl

theorem type_hints_issues (parse : PyParse) (fp content : String) (st : AGENTSCompliance) :
    (_check_type_hints parse fp content st).issues =
      (match parse content with
       | .ok _ => st.issues
       | .error e => st.issues ++ [(fp, "❌ Syntax error: " ++ e, 2)]) := by
  cases hp : parse content with
  | ok tree =>
    simp only [_check_type_hints, hp]
    split <;> rfl
  | error e =>
    simp only [_check_type_hints, hp]

theorem mem_issues_type_hints (parse : PyParse) (fp content : String) (st : AGENTSCompliance)
    (t : String × String × Nat) (h : t ∈ st.issues) :
    t ∈ (_check_type_hints parse fp content st).issues := by
  rw [type_hints_issues]
  cases parse content <;> simp [h]

theorem mem_issues_naming (fp content : String) (st : AGENTSCompliance)
    (t : String × String × Nat) (h : t ∈ st.issues) : t ∈ (_check_naming fp content st).issues := by
  rw [naming_issues]
  exact h

theorem mem_issues_docstrings (fp content : String) (st : AGENTSCompliance)
    (t : String × String × Nat) (h : t ∈ st.issues) :
    t ∈ (_check_docstrings fp content st).issues := by
  simp only [_check_docstrings]
  split <;> simp [h]

theorem mem_issues_line_length (fp content : String) (st : AGENTSCompliance)
    (t : String × String × Nat) (h : t ∈ st.issues) :
    t ∈ (_check_line_length fp content st).issues := by
  simp only [_check_line_length]
  split <;> simp [h]

theorem mem_issues_isort (fp content : String) (st : AGENTSCompliance)
    (t : String × String × Nat) (h : t ∈ st.issues) :
    t ∈ (_check_isort_order fp content st).issues := by
  simp only [_check_isort_order]
  repeat' split
  all_goals simp [h]

theorem mem_issues_thread_safety (fp content : String) (st : AGENTSCompliance)
    (t : String × String × Nat) (h : t ∈ st.issues) :
    t ∈ (_check_thread_safety fp content st).issues := by
  rw [thread_safety_issues]
  exact h

theorem mem_issues_logging (fp content : String) (st : AGENTSCompliance)
    (t : String × String × Nat) (h : t ∈ st.issues) :
    t ∈ (_check_logging fp content st).issues := by
  rw [logging_issues]
  exact h

/-- On the one-line content `except:`, the first three checks from a fresh
state leave exactly the bare-except error tuple in the issues list. -/
theorem first_three_checks_on_bare_except (fp : String) :
    (_check_no_bare_except fp "except:" (_check_union_types fp "except:"
      (_check_no_deprecated_typing fp "except:" init))).issues =
      [(fp, "❌ Bare 'except:' found (use specific exceptions)", 2)] := rfl

theorem bare_tuple_mem_run_checks (parse : PyParse) (fp : String) :
    (fp, "❌ Bare 'except:' found (use specific exceptions)", 2) ∈
      (run_checks parse fp "except:" init).issues := by
  simp only [run_checks]
  apply mem_issues_logging
  apply mem_issues_thread_safety
  apply mem_issues_isort
  apply mem_issues_line_length
  apply mem_issues_docstrings
  apply mem_issues_naming
  apply mem_issues_type_hints
  rw [first_three_checks_on_bare_except]
  simp

end AGENTSCompliance

/-- If a content holds the literal substring `except:` then the regex
`except\s*:` of the bare-except check matches it. -/
theorem bare_of_substr (content : String) (h : hasSubstr content "except:" = true) :
    bare_except_found content = true := by
  simp only [hasSubstr, List.any_eq_true] at h
  obtain ⟨i, hi, hp⟩ := h
  simp only [bare_except_found, List.any_eq_true]
  refine ⟨i, hi, ?_⟩
  rw [Bool.and_eq_true]
  rw [List.isPrefixOf_iff_prefix] at hp
  obtain ⟨t, ht⟩ := hp
  constructor
  · rw [List.isPrefixOf_iff_prefix]
    exact ⟨':' :: t, by rw [← ht]; rfl⟩
  · have hd : List.drop 6 (List.drop i content.toList) = ':' :: t := by
      rw [← ht]
      rfl
    rw [List.drop_drop] at hd
    rw [hd]
    rfl

/-! Helper lemmas about the integration verifier. -/

namespace VerifyPlaylistIntegration

theorem check_import_ok (mp cn : String) (n : Nat) (o : ImportOutcome) (v : Nat × Nat)
    (h : _check_import mp cn n o = .ok v) : v = (1, 0) ∨ v = (0, 1) := by
  cases o <;> simp_all [_check_import]

theorem inh_cases (o : InheritOutcome) :
    _check_mainwindow_inheritance o = (1, 0) ∨ _check_mainwindow_inheritance o = (0, 1) := by
  cases o <;> simp [_check_mainwindow_inheritance]

theorem meth_cases (o : MethodOutcome) :
    _check_method_exists o = (1, 0) ∨ _check_method_exists o = (0, 1) := by
  cases o <;> simp [_check_method_exists]

theorem file_cases (r : Except String String) (s : String) (n : Nat) (m1 m2 : String) :
    _check_file_content r s n m1 m2 = (1, 0) ∨ _check_file_content r s n m1 m2 = (0, 1) := by
  cases r with
  | error e => simp [_check_file_content]
  | ok c =>
    cases hc : hasSubstr c s <;> simp [_check_file_content, hc]

theorem inh_spec (o : InheritOutcome) :
    (_check_mainwindow_inheritance o).1 + (_check_mainwindow_inheritance o).2 = 1 ∧
    ((_check_mainwindow_inheritance o).2 = 0 ↔ o = .subclassTrue) := by
  cases o <;> simp [_check_mainwindow_inheritance]

theorem meth_spec (o : MethodOutcome) :
    (_check_method_exists o).1 + (_check_method_exists o).2 = 1 ∧
    ((_check_method_exists o).2 = 0 ↔ o = .hasMethod) := by
  cases o <;> simp [_check_method_exists]

theorem file_spec (r : Except String String) (s : String) (n : Nat) (m1 m2 : String) :
    (_check_file_content r s n m1 m2).1 + (_check_file_content r s n m1 m2).2 = 1 ∧
    ((_check_file_content r s n m1 m2).2 = 0 ↔ ∃ c, r = .ok c ∧ hasSubstr c s = true) := by
  cases r with
  | error e => simp [_check_file_content]
  | ok c => cases hc : hasSubstr c s <;> simp [_check_file_content, hc]

theorem run_imports_spec (e : IntegrationEnv) (p f : Nat)
    (h : _run_all_import_checks e = .ok (p, f)) :
    p + f = 5 ∧ (f = 0 ↔ e.imp1 = .success ∧ e.imp2 = .success ∧ e.imp3 = .success ∧
      e.imp4 = .success ∧ e.imp5 = .success) := by
  obtain ⟨i1, i2, i3, i4, i5, ih, mh, r8, r9, r10⟩ := e
  cases i1 <;> cases i2 <;> cases i3 <;> cases i4 <;> cases i5 <;>
    simp_all [_run_all_import_checks, _check_import] <;> omega

theorem integration_sum (e : IntegrationEnv) (p f c : Nat)
    (h : check_integration e = .ok (p, f, c)) : p + f = 10 := by
  cases hri : _run_all_import_checks e with
  | error m =>
    rw [check_integration, hri] at h
    exact absurd h (by simp)
  | ok pf =>
    obtain ⟨pi, fi⟩ := pf
    rw [check_integration, hri] at h
    simp only [Except.ok.injEq, Prod.mk.injEq] at h
    obtain ⟨hp, hf, -⟩ := h
    have h5 := (run_imports_spec e pi fi hri).1
    have h6 := (inh_spec e.inh).1
    have h7 := (meth_spec e.meth).1
    have h8 := (file_spec e.read8 "child_playlists" 8
      "child_playlists column added to TreesResultsMixin"
      "child_playlists column NOT found in TreesResultsMixin").1
    have h9 := (file_spec e.read9 "init_playlist_membership_manager" 9
      "init_playlist_membership_manager called in init_tidal"
      "init_playlist_membership_manager NOT called in init_tidal").1
    have h10 := (file_spec e.read10 "PlaylistCellState" 10
      "PlaylistCellState imported in mixin"
      "PlaylistCellState NOT imported in mixin").1
    omega

end VerifyPlaylistIntegration

/-! The claims. -/

/-- C1: the exit code returned by AGENTSCompliance.report is 0 exactly when
the accumulated issues list holds no tuple of severity 2; a severity-1
warning tuple is not of severity 2, so warnings alone never give a non-zero
exit code. -/
theorem report_exit_zero_iff_no_error (st : AGENTSCompliance) :
    AGENTSCompliance.report st = 0 ↔ ∀ t ∈ st.issues, t.2.2 ≠ 2 := by
  simp only [AGENTSCompliance.report]
  split <;> rename_i hb
  · simp only [beq_iff_eq, List.length_eq_zero] at hb
    simpa using (AGENTSCompliance.filter_errors_nil_iff st).mp hb
  · simp only [beq_iff_eq, List.length_eq_zero] at hb
    constructor
    · intro h
      exact absurd h (by omega)
    · intro h
      exact absurd ((AGENTSCompliance.filter_errors_nil_iff st).mpr h) hb

namespace VerifyPlaylistIntegration

theorem exit_code_zero_iff (n : Nat) : ((if n == 0 then (0 : Nat) else 1) = 0) ↔ n = 0 := by
  cases n <;> simp

/-- C2: whenever check_integration completes with counts (p, f) and exit code
c, the exit code is 0 exactly when the failed count f is 0, and f is 0
exactly when all ten individual checks pass. -/
theorem check_integration_exit_iff_all_pass (e : IntegrationEnv) (p f c : Nat)
    (h : check_integration e = .ok (p, f, c)) :
    (c = 0 ↔ f = 0) ∧ (f = 0 ↔ e.allPass) := by
  cases hri : _run_all_import_checks e with
  | error m =>
    rw [check_integration, hri] at h
    exact absurd h (by simp)
  | ok pf =>
    obtain ⟨pi, fi⟩ := pf
    rw [check_integration, hri] at h
    simp only [Except.ok.injEq, Prod.mk.injEq] at h
    obtain ⟨hp, hf, hc⟩ := h
    subst hp hf hc
    refine ⟨exit_code_zero_iff _, ?_⟩
    have himp := (run_imports_spec e pi fi hri).2
    have h6 := inh_spec e.inh
    have h7 := meth_spec e.meth
    have h8 := file_spec e.read8 "child_playlists" 8
      "child_playlists column added to TreesResultsMixin"
      "child_playlists column NOT found in TreesResultsMixin"
    have h9 := file_spec e.read9 "init_playlist_membership_manager" 9
      "init_playlist_membership_manager called in init_tidal"
      "init_playlist_membership_manager NOT called in init_tidal"
    have h10 := file_spec e.read10 "PlaylistCellState" 10
      "PlaylistCellState imported in mixin"
      "PlaylistCellState NOT imported in mixin"
    unfold IntegrationEnv.allPass
    constructor
    · intro h0
      obtain ⟨a1, a2, a3, a4, a5⟩ := himp.mp (by omega)
      exact ⟨a1, a2, a3, a4, a5, h6.2.mp (by omega), h7.2.mp (by omega), h8.2.mp (by omega),
        h9.2.mp (by omega), h10.2.mp (by omega)⟩
    · rintro ⟨a1, a2, a3, a4, a5, b6, b7, b8, b9, b10⟩
      have hfi : fi = 0 := himp.mpr ⟨a1, a2, a3, a4, a5⟩
      have e6 := h6.2.mpr b6
      have e7 := h7.2.mpr b7
      have e8 := h8.2.mpr b8
      have e9 := h9.2.mpr b9
      have e10 := h10.2.mpr b10
      omega

/-- Witness for C2 at an environment in which all ten checks pass and
check_integration returns (10, 0, 0). -/
theorem check_integration_exit_iff_all_pass_witness :
    ((0 : Nat) = 0 ↔ (0 : Nat) = 0) ∧ ((0 : Nat) = 0 ↔ IntegrationEnv.allPass
      ⟨.success, .success, .success, .success, .success, .subclassTrue, .hasMethod,
        .ok "child_playlists", .ok "init_playlist_membership_manager",
        .ok "PlaylistCellState"⟩) :=
  check_integration_exit_iff_all_pass _ 10 0 0 rfl

/-- C7: each of the ten checks of the integration verifier is a function of
its own input slice alone, so equal slices give equal outcomes whatever the
rest of the environment does. -/
theorem checks_independent (j : Fin 10) (e1 e2 : IntegrationEnv)
    (h : check_input j e1 = check_input j e2) :
    check_outcome j e1 = check_outcome j e2 := by
  fin_cases j <;>
    simp only [check_input, CheckInput.imp.injEq, CheckInput.inh.injEq, CheckInput.meth.injEq,
      CheckInput.file.injEq] at h <;>
    simp [check_outcome, h]

/-- Witness for C7: two environments agree on the first import outcome and
differ everywhere else, and check 1 has the same outcome in both. -/
theorem checks_independent_witness :
    check_outcome 0 ⟨.success, .success, .success, .success, .success, .subclassTrue, .hasMethod,
        .ok "a", .ok "b", .ok "c"⟩ =
      check_outcome 0 ⟨.success, .importError "x", .otherError "y", .success, .success,
        .subclassFalse, .missingMethod, .error "io", .ok "b2", .ok "c2"⟩ :=
  checks_independent 0 _ _ rfl

/-- C9: every individual check that returns a value returns (1, 0) or (0, 1),
and when check_integration completes its summary counts satisfy
checks_passed + checks_failed = 10. -/
theorem checks_sum_to_ten :
    (∀ (j : Fin 10) (e : IntegrationEnv) (v : Nat × Nat),
      check_outcome j e = .ok v → v = (1, 0) ∨ v = (0, 1)) ∧
    (∀ (e : IntegrationEnv) (p f c : Nat), check_integration e = .ok (p, f, c) → p + f = 10) := by
  constructor
  · intro j e v h
    fin_cases j <;> simp only [check_outcome] at h
    · exact check_import_ok _ _ _ _ _ h
    · exact check_import_ok _ _ _ _ _ h
    · exact check_import_ok _ _ _ _ _ h
    · exact check_import_ok _ _ _ _ _ h
    · exact check_import_ok _ _ _ _ _ h
    · rw [Except.ok.injEq] at h
      subst h
      exact inh_cases _
    · rw [Except.ok.injEq] at h
      subst h
      exact meth_cases _
    · rw [Except.ok.injEq] at h
      subst h
      exact file_cases _ _ _ _ _
    · rw [Except.ok.injEq] at h
      subst h
      exact file_cases _ _ _ _ _
    · rw [Except.ok.injEq] at h
      subst h
      exact file_cases _ _ _ _ _
  · exact fun e p f c h => integration_sum e p f c h

/-- Witness for C9: check 1 on a succeeding import yields (1, 0), and one
completed run has counts 10 and 0. -/
theorem checks_sum_to_ten_witness :
    (((1, 0) : Nat × Nat) = (1, 0) ∨ ((1, 0) : Nat × Nat) = (0, 1)) ∧ 10 + 0 = 10 :=
  ⟨checks_sum_to_ten.1 0 ⟨.success, .success, .success, .success, .success, .subclassTrue,
      .hasMethod, .ok "a", .ok "b", .ok "c"⟩ (1, 0) rfl,
   checks_sum_to_ten.2 ⟨.success, .success, .success, .success, .success, .subclassTrue,
      .hasMethod, .ok "child_playlists", .ok "init_playlist_membership_manager",
      .ok "PlaylistCellState"⟩ 10 0 0 rfl⟩

end VerifyPlaylistIntegration

/-- C3: a content holding the literal substring `except:` makes the
bare-except check append exactly one severity-2 tuple to the issues list,
and a whole checker run over the single file `except:` (whatever ast.parse
does on it) exits with code 1. -/
theorem bare_except_records_error :
    (∀ (fp content : String) (st : AGENTSCompliance), hasSubstr content "except:" = true →
      (AGENTSCompliance._check_no_bare_except fp content st).issues =
        st.issues ++ [(fp, "❌ Bare 'except:' found (use specific exceptions)", 2)]) ∧
    (∀ (parse : PyParse) (fp : String),
      AGENTSCompliance.main_exit parse [(fp, Except.ok "except:")] = Except.ok 1) := by
  constructor
  · intro fp content st h
    simp [AGENTSCompliance._check_no_bare_except, bare_of_substr content h]
  · intro parse fp
    have hmem := AGENTSCompliance.bare_tuple_mem_run_checks parse fp
    have hrep := AGENTSCompliance.report_one_of_error _ _ hmem rfl
    simp [AGENTSCompliance.main_exit, AGENTSCompliance.run_files, AGENTSCompliance.check_file,
      Except.map, hrep]

/-- Witness for C3 on the one-line file `except:` from a fresh state. -/
theorem bare_except_records_error_witness :
    (AGENTSCompliance._check_no_bare_except "a.py" "except:" AGENTSCompliance.init).issues =
      AGENTSCompliance.init.issues ++
        [("a.py", "❌ Bare 'except:' found (use specific exceptions)", 2)] :=
  bare_except_records_error.1 "a.py" "except:" AGENTSCompliance.init (by decide)

/-- C4 counterexample: the content `from typing import Optionally` holds the
literal substring `from typing import Optional`, yet the deprecated-typing
check records no issue at all for it — the regex requires `Optional` as a
whole word (`\bOptional\b`), and here it is followed by another word
character. -/
theorem deprecated_substring_not_flagged :
    hasSubstr "from typing import Optionally" "from typing import Optional" = true ∧
    (AGENTSCompliance._check_no_deprecated_typing "module.py" "from typing import Optionally"
        AGENTSCompliance.init).issues = [] := by
  exact ⟨by decide, by decide⟩

/-- C4 amended: for every ASCII file content that matches the
deprecated-import pattern for `Optional` — `from typing import` followed on
the same line by the whole word `Optional` — the deprecated-typing check
appends exactly one severity-2 issue, however many deprecated typing imports
the file holds.  The ASCII bound pins the statement to the domain on which
`deprecated_found` renders the Unicode word boundary `\b` of the source
regex exactly. -/
theorem deprecated_word_match_one_error (fp content : String) (st : AGENTSCompliance)
    (hascii : ascii_only content = true)
    (h : deprecated_found "Optional" content = true) :
    ∃ msg, (AGENTSCompliance._check_no_deprecated_typing fp content st).issues =
      st.issues ++ [(fp, msg, 2)] := by
  cases hf : AGENTSCompliance.deprecated_names.find?
      (fun name => deprecated_found name content) with
  | none =>
    exfalso
    have hall := List.find?_eq_none.mp hf "Optional" (by simp [AGENTSCompliance.deprecated_names])
    simp [h] at hall
  | some name =>
    refine ⟨"❌ Deprecated: 'from typing import " ++ name ++ "' (use built-in)", ?_⟩
    simp [AGENTSCompliance._check_no_deprecated_typing, hf]

/-- Witness for C4 amended: the ASCII content `from typing import Optional`
matches the pattern and yields exactly one severity-2 issue. -/
theorem deprecated_word_match_one_error_witness :
    ∃ msg, (AGENTSCompliance._check_no_deprecated_typing "module.py"
        "from typing import Optional" AGENTSCompliance.init).issues =
      AGENTSCompliance.init.issues ++ [("module.py", msg, 2)] :=
  deprecated_word_match_one_error "module.py" "from typing import Optional"
    AGENTSCompliance.init (by decide) (by decide)

/-- C5: with more than five docstring blocks (as the checker counts them by
its regex) the docstring check appends one pass message and no issue;
otherwise it appends exactly one severity-1 warning and no pass message. -/
theorem docstrings_threshold (fp content : String) (st : AGENTSCompliance) :
    (5 < doc_count content →
      (AGENTSCompliance._check_docstrings fp content st).issues = st.issues ∧
      ∃ m, (AGENTSCompliance._check_docstrings fp content st).passed = st.passed ++ [m]) ∧
    (doc_count content ≤ 5 →
      (AGENTSCompliance._check_docstrings fp content st).passed = st.passed ∧
      (AGENTSCompliance._check_docstrings fp content st).issues = st.issues ++
        [(fp, "⚠️ Few docstrings found (" ++ toString (doc_count content) ++ ")", 1)]) := by
  constructor
  · intro h
    constructor
    · simp [AGENTSCompliance._check_docstrings, if_pos h]
    · exact ⟨"✅ Comprehensive docstrings (" ++ path_name fp ++ ") - " ++
        toString (doc_count content) ++ " found",
        by simp [AGENTSCompliance._check_docstrings, if_pos h]⟩
  · intro h
    have hn : ¬doc_count content > 5 := by omega
    constructor
    · simp [AGENTSCompliance._check_docstrings, if_neg hn]
    · simp [AGENTSCompliance._check_docstrings, if_neg hn]

/-- Witness for C5: a file with six docstring blocks passes, a file with none
gets one warning. -/
theorem docstrings_threshold_witness :
    ((AGENTSCompliance._check_docstrings "a.py"
        "\"\"\"a\"\"\"\n\"\"\"b\"\"\"\n\"\"\"c\"\"\"\n\"\"\"d\"\"\"\n\"\"\"e\"\"\"\n\"\"\"f\"\"\""
        AGENTSCompliance.init).issues = AGENTSCompliance.init.issues ∧
      ∃ m, (AGENTSCompliance._check_docstrings "a.py"
        "\"\"\"a\"\"\"\n\"\"\"b\"\"\"\n\"\"\"c\"\"\"\n\"\"\"d\"\"\"\n\"\"\"e\"\"\"\n\"\"\"f\"\"\""
        AGENTSCompliance.init).passed = AGENTSCompliance.init.passed ++ [m]) ∧
    ((AGENTSCompliance._check_docstrings "a.py" "x = 1" AGENTSCompliance.init).passed =
        AGENTSCompliance.init.passed ∧
      (AGENTSCompliance._check_docstrings "a.py" "x = 1" AGENTSCompliance.init).issues =
        AGENTSCompliance.init.issues ++
          [("a.py", "⚠️ Few docstrings found (" ++ toString (doc_count "x = 1") ++ ")", 1)]) :=
  ⟨(docstrings_threshold "a.py"
      "\"\"\"a\"\"\"\n\"\"\"b\"\"\"\n\"\"\"c\"\"\"\n\"\"\"d\"\"\"\n\"\"\"e\"\"\"\n\"\"\"f\"\"\""
      AGENTSCompliance.init).1 (by decide),
   (docstrings_threshold "a.py" "x = 1" AGENTSCompliance.init).2 (by decide)⟩

/-- C6 counterexample: a non-ImportError exception raised by an import
attempt is not converted into a failed-check record (the model propagates
it), and an exception from the compliance checker file read aborts
check_file instead of being recorded. -/
theorem uncaught_exception_propagates :
    (¬ ∃ v, VerifyPlaylistIntegration._check_import "tidal_dl_ng.gui.playlist_membership"
        "PlaylistContextLoader" 2 (.otherError "boom") = Except.ok v) ∧
    (¬ ∃ st, AGENTSCompliance.check_file (fun _ => Except.ok ⟨[]⟩) "f.py"
        (Except.error "read failed") AGENTSCompliance.init = Except.ok st) := by
  constructor
  · rintro ⟨v, hv⟩
    simp [VerifyPlaylistIntegration._check_import] at hv
  · rintro ⟨st, hst⟩
    simp [AGENTSCompliance.check_file] at hst

/-- C6 amended: the exceptions the scripts do catch locally are converted
into failed-check records — an ImportError in an import attempt, and any
exception inside the file-content, inheritance and attribute checks of the
integration verifier; a non-ImportError exception from an import attempt and
an exception from the compliance checker file read propagate instead. -/
theorem caught_exceptions_recorded :
    (∀ (mp cn : String) (n : Nat) (msg : String),
      VerifyPlaylistIntegration._check_import mp cn n (.importError msg) = Except.ok (0, 1)) ∧
    (∀ (s : String) (n : Nat) (m1 m2 msg : String),
      VerifyPlaylistIntegration._check_file_content (Except.error msg) s n m1 m2 = (0, 1)) ∧
    (∀ msg, VerifyPlaylistIntegration._check_mainwindow_inheritance (.raised msg) = (0, 1)) ∧
    (∀ msg, VerifyPlaylistIntegration._check_method_exists (.raised msg) = (0, 1)) :=
  ⟨fun _ _ _ _ => rfl, fun _ _ _ _ _ => rfl, fun _ => rfl, fun _ => rfl⟩

/-- C8: both scripts are modelled as pure functions of the checked file
contents and probed runtime facts — they keep no state across runs and a
fresh AGENTSCompliance instance starts empty — so two runs over unchanged
inputs give identical pass, warning and error counts and the same exit code. -/
theorem runs_deterministic (parse : PyParse) (files : List (String × Except String String))
    (e : VerifyPlaylistIntegration.IntegrationEnv) :
    AGENTSCompliance.run_counts parse files = AGENTSCompliance.run_counts parse files ∧
    VerifyPlaylistIntegration.check_integration e =
      VerifyPlaylistIntegration.check_integration e :=
  ⟨rfl, rfl⟩

/-- C10: the union-types, thread-safety and logging checks never append to
the issues list for any content, and the type-hints check appends an issue
(one severity-2 tuple) exactly when ast.parse fails — functions without
return-type hints only change the wording of a pass message. -/
theorem silent_checks_never_append_issues (parse : PyParse) (fp content : String)
    (st : AGENTSCompliance) :
    (AGENTSCompliance._check_union_types fp content st).issues = st.issues ∧
    (AGENTSCompliance._check_thread_safety fp content st).issues = st.issues ∧
    (AGENTSCompliance._check_logging fp content st).issues = st.issues ∧
    (AGENTSCompliance._check_type_hints parse fp content st).issues =
      (match parse content with
       | .ok _ => st.issues
       | .error e => st.issues ++ [(fp, "❌ Syntax error: " ++ e, 2)]) :=
  ⟨AGENTSCompliance.union_types_issues fp content st,
   AGENTSCompliance.thread_safety_issues fp content st,
   AGENTSCompliance.logging_issues fp content st,
   AGENTSCompliance.type_hints_issues parse fp content st⟩
